import Mathlib

/-!
Verification of the job-orchestration core of `src/main.py` (automatic S3
video analysis service).

The Python source is shallowly embedded: the module-level mutable state
(`_pending_gpt_analyses`, `_batch_processing_active`) becomes an explicit
`BatchState`; the fallible external stages (S3 download, emotion analysis,
eye tracking, the MariaDB/keyword finalization) become `StageResult`
parameters of the job runner; MongoDB `replace_one(..., upsert=True)`
becomes `upsertRecord` on a list of records.  Exceptions are modelled with
explicit outcome values; `asyncio` interleaving is modelled at the await
points of the source (the guard / flag-set / snapshot prefix of
`process_gpt_batch`, lines 1317-1322, contains no `await`, so it is a
single atomic step).
-/

namespace ModelVideo

/-- The projection of `eye_tracking_analysis['analysis_summary']` that the
cheating detection reads (lines 884-885 and 1373-1375). -/
structure GazeSummary where
  total_violations : Nat
  face_multiple_detected : Bool
  deriving DecidableEq, Repr

/-- The `cheating_detection` sub-document written to MongoDB
(lines 906-911 for a completed job, lines 1023-1029 for a failed job).
The completed record omits `error_occurred`, modelled here as `false`. -/
structure CheatingDetection where
  suspected_copying : Bool
  suspected_impersonation : Bool
  total_violations : Nat
  face_multiple_detected : Bool
  error_occurred : Bool
  deriving DecidableEq, Repr

/-- A document of the MongoDB `analysis_results` collection, restricted to
the fields the verified claims mention. -/
structure AnalysisRecord where
  analysis_id : String
  user_id : String
  question_num : String
  session_id : String
  status : String
  error : Option String
  cheating : CheatingDetection
  deriving DecidableEq, Repr

/-- An element of the global `_pending_gpt_analyses` queue (lines 1304-1310);
the `added_at` timestamp is display-only in the source and is omitted. -/
structure BatchItem where
  analysis_id : String
  user_id : String
  question_num : String
  deriving DecidableEq, Repr

/-- The module-level mutable state of the deferred GPT batch:
`_pending_gpt_analyses` and `_batch_processing_active` (lines 50-51). -/
structure BatchState where
  pending : List BatchItem
  active : Bool
  deriving DecidableEq, Repr

/-- Lines 1317-1322 of `process_gpt_batch`: the guard
(`if _batch_processing_active or not _pending_gpt_analyses: return`), the
flag set, and the snapshot-and-clear of the queue.  This prefix contains no
`await`, so under asyncio it executes atomically; it is one step of the
model.  Returns `none` when the trigger is a no-op, otherwise the snapshot
`batch_to_process` together with the state holding the fresh empty queue
and the raised flag. -/
def drainAcquire (s : BatchState) : BatchState × Option (List BatchItem) :=
  if s.active || s.pending.isEmpty then (s, none)
  else ({ pending := [], active := true }, some s.pending)

/-- `process_gpt_batch` (lines 1313-1427), big-step.  `enqVals` are the
items that concurrent `add_to_gpt_batch_queue` calls append while the body
of this call runs (they land in the queue left behind by the atomic
acquire step).  `raiseAfter = some k` models a top-level exception thrown
out of the processing loop after `k` items: it is caught at line 1424 and
the `finally` block at lines 1426-1427 clears the flag on every exit path.
The second component is the list of snapshot entries the drain consumed. -/
def process_gpt_batch (raiseAfter : Option Nat) (enqVals : List BatchItem)
    (s : BatchState) : BatchState × List BatchItem :=
  match drainAcquire s with
  | (s1, none) => ({ s1 with pending := s1.pending ++ enqVals }, [])
  | (_, some snapshot) =>
      let consumed := match raiseAfter with
        | none => snapshot
        | some k => snapshot.take k
      ({ pending := enqVals, active := false }, consumed)

/-- Concrete batch items for the closed instances of the batch-queue
theorems. -/
def itemA : BatchItem := { analysis_id := "auto_s3_analysis_u1_q1_t1", user_id := "u1", question_num := "q1" }

def itemB : BatchItem := { analysis_id := "auto_s3_analysis_u2_q2_t2", user_id := "u2", question_num := "q2" }

/-- One status emission `(status, stage, progress)` passed to
`update_analysis_status` (line 1167); the progress values occurring in the
source are exact small integers, so `Nat` embeds the Python floats. -/
structure StatusUpdate where
  status : String
  stage : Option String
  progress : Nat
  deriving DecidableEq, Repr

/-- The result of one call to `update_analysis_status`: the update that was
attempted and whether the write succeeded (`delivered = false` means the
internal exception of lines 1197-1198 was logged and swallowed). -/
structure SinkCall where
  update : StatusUpdate
  delivered : Bool
  deriving DecidableEq, Repr

/-- `update_analysis_status` (lines 1167-1198): the whole body sits in
`try/except`, so the call always returns normally; an internal failure of
the status write only flips `delivered`. -/
def update_analysis_status (writeFails : Bool) (u : StatusUpdate) : SinkCall :=
  { update := u, delivered := !writeFails }

/-- Outcome of one fallible external stage call: either its value, or the
exception message it raises. -/
inductive StageResult (α : Type) where
  | ok (value : α)
  | raises (msg : String)
  deriving DecidableEq, Repr

/-- The environment of one run of `process_s3_user_video_analysis`
(the second definition, lines 822-1049, which shadows the first one at
line 708 and is the one Python executes): the behaviour of each external
stage.  `download` covers mkdir + `s3_handler.download_file`; `emotion`
covers `emotion_analyzer.analyze_video`; `gaze` covers
`eye_tracking_analyzer.analyze_video` and yields the `analysis_summary`
projection; `finalize` covers the keyword analysis and the MariaDB save
performed after the MongoDB write (lines 973-1000). -/
structure JobEnv where
  download : StageResult Unit
  emotion : StageResult Unit
  gaze : StageResult GazeSummary
  finalize : StageResult Unit
  deriving DecidableEq

/-- The observable effects of one run of `process_s3_user_video_analysis`:
the sequence of `update_analysis_status` calls, the final
`analysis_results` document written for this `analysis_id` (the last
upsert wins: the failed-finalize path first writes the completed record,
then replaces it with the error record), and the `add_to_gpt_batch_queue`
addition if one happened (line 929). -/
structure JobResult where
  sinkEvents : List SinkCall
  record : AnalysisRecord
  queueAdd : Option BatchItem
  deriving DecidableEq

/-- The error document of lines 1014-1030: status `error`, the causing
message, and a `cheating_detection` block with every signal absent. -/
def errorRecord (aid uid qnum session msg : String) : AnalysisRecord :=
  { analysis_id := aid, user_id := uid, question_num := qnum,
    session_id := session, status := "error", error := some msg,
    cheating := { suspected_copying := false, suspected_impersonation := false,
                  total_violations := 0, face_multiple_detected := false,
                  error_occurred := true } }

/-- The completed document of lines 893-915: status `completed` and the
cheating signals recomputed from the gaze summary exactly as lines 884-887
do (`suspected_copying = total_violations >= 5`,
`suspected_impersonation = face_multiple_detected`). -/
def completedRecord (aid uid qnum session : String) (g : GazeSummary) : AnalysisRecord :=
  { analysis_id := aid, user_id := uid, question_num := qnum,
    session_id := session, status := "completed", error := none,
    cheating := { suspected_copying := decide (5 ≤ g.total_violations),
                  suspected_impersonation := g.face_multiple_detected,
                  total_violations := g.total_violations,
                  face_multiple_detected := g.face_multiple_detected,
                  error_occurred := false } }

/-- Lines 1373-1375 of `process_gpt_batch`: the drain recomputes
`(suspected_copying, suspected_impersonation)` from the stored
`eye_tracking_analysis.analysis_summary` with the same formula. -/
def drainCheatSignals (g : GazeSummary) : Bool × Bool :=
  (decide (5 ≤ g.total_violations), g.face_multiple_detected)

/-- One run of `process_s3_user_video_analysis` (lines 822-1049).
`sink n` tells whether the `n`-th status write fails internally; the
result of `update_analysis_status` is never inspected by the pipeline.
Every stage exception lands in the `except` block of lines 1008-1040:
status update `("failed", "error", 0)` followed by the upsert of the error
record.  The MongoDB writes themselves are modelled as state updates (their
own `try/except` only guards the external engine, which is outside the
model). -/
def runJob (aid uid qnum session : String) (env : JobEnv) (sink : Nat → Bool) :
    JobResult :=
  let c1 := update_analysis_status (sink 0) { status := "processing", stage := some "download", progress := 10 }
  match env.download with
  | .raises msg =>
      { sinkEvents := [c1, update_analysis_status (sink 1) { status := "failed", stage := some "error", progress := 0 }],
        record := errorRecord aid uid qnum session msg, queueAdd := none }
  | .ok _ =>
  let c2 := update_analysis_status (sink 1) { status := "processing", stage := some "emotion_analysis", progress := 30 }
  match env.emotion with
  | .raises msg =>
      { sinkEvents := [c1, c2, update_analysis_status (sink 2) { status := "failed", stage := some "error", progress := 0 }],
        record := errorRecord aid uid qnum session msg, queueAdd := none }
  | .ok _ =>
  let c3 := update_analysis_status (sink 2) { status := "processing", stage := some "eye_tracking", progress := 60 }
  match env.gaze with
  | .raises msg =>
      { sinkEvents := [c1, c2, c3, update_analysis_status (sink 3) { status := "failed", stage := some "error", progress := 0 }],
        record := errorRecord aid uid qnum session msg, queueAdd := none }
  | .ok g =>
  let c4 := update_analysis_status (sink 3) { status := "processing", stage := some "save_results", progress := 80 }
  match env.finalize with
  | .raises msg =>
      { sinkEvents := [c1, c2, c3, c4, update_analysis_status (sink 4) { status := "failed", stage := some "error", progress := 0 }],
        record := errorRecord aid uid qnum session msg,
        queueAdd := some { analysis_id := aid, user_id := uid, question_num := qnum } }
  | .ok _ =>
      { sinkEvents := [c1, c2, c3, c4, update_analysis_status (sink 4) { status := "completed", stage := some "completed", progress := 100 }],
        record := completedRecord aid uid qnum session g,
        queueAdd := some { analysis_id := aid, user_id := uid, question_num := qnum } }

/-- The message of the first stage of a job run that raises, if any. -/
def jobFailMsg (env : JobEnv) : Option String :=
  match env.download with
  | .raises m => some m
  | .ok _ =>
  match env.emotion with
  | .raises m => some m
  | .ok _ =>
  match env.gaze with
  | .raises m => some m
  | .ok _ =>
  match env.finalize with
  | .raises m => some m
  | .ok _ => none

/-- The progress values of the status updates a job run emits, in order. -/
def jobProgressSeq (aid uid qnum session : String) (env : JobEnv) (sink : Nat → Bool) : List Nat :=
  (runJob aid uid qnum session env sink).sinkEvents.map (fun c => c.update.progress)

/-- MongoDB `collection.replace_one({'analysis_id': aid}, doc, upsert=True)`
(lines 917-923 and 1032-1038): replace the first document with the same
`analysis_id`, or append when none exists. -/
def upsertRecord (db : List AnalysisRecord) (r : AnalysisRecord) : List AnalysisRecord :=
  match db with
  | [] => [r]
  | x :: xs =>
      if x.analysis_id == r.analysis_id then r :: xs
      else x :: upsertRecord xs r

/-- `collection.find_one({'analysis_id': aid})`. -/
def findRecord (db : List AnalysisRecord) (aid : String) : Option AnalysisRecord :=
  db.find? (fun x => x.analysis_id == aid)

/-- The per-unit environment of the scan loop of
`auto_analyze_all_s3_videos`: the `find_video_file` result (line 1249;
`none` makes the loop `continue` without writing anything) and the stage
behaviour of the unit's job. -/
structure UnitEnv where
  video_key : Option String
  job : JobEnv

/-- One iteration of the scan loop (lines 1241-1274): skip the unit when no
video file is found, otherwise run `process_s3_user_video_analysis` with
`session_id = "auto_batch"` and upsert the record it writes.  The job
catches its stage exceptions itself, so the iteration always reaches the
next unit. -/
def scan_step (aidOf : String → String → String) (envOf : String → String → UnitEnv)
    (sink : Nat → Bool) (db : List AnalysisRecord) (p : String × String) :
    List AnalysisRecord :=
  match (envOf p.1 p.2).video_key with
  | none => db
  | some _ => upsertRecord db (runJob (aidOf p.1 p.2) p.1 p.2 "auto_batch" (envOf p.1 p.2).job sink).record

/-- The scan pass of `auto_analyze_all_s3_videos` over the pending list
`videos_to_analyze` (lines 1241-1274), sequentially by design. -/
def auto_analyze_pending (aidOf : String → String → String)
    (envOf : String → String → UnitEnv) (sink : Nat → Bool)
    (pending : List (String × String)) (db : List AnalysisRecord) :
    List AnalysisRecord :=
  pending.foldl (scan_step aidOf envOf sink) db

/-- The `f"{user_id}_{question_num}"` dedup key (lines 1222 and 1230). -/
def analysisKey (uid qnum : String) : String := uid ++ "_" ++ qnum

/-- Lines 1214-1222: the keys of every existing `analysis_results`
document — the query has no status filter; a document only contributes if
both fields are truthy (non-empty). -/
def existing_analyses (db : List AnalysisRecord) : List String :=
  (db.filter (fun r => !(r.user_id == "") && !(r.question_num == ""))).map
    (fun r => analysisKey r.user_id r.question_num)

/-- Lines 1227-1232: the pending units of a scan pass — the available
units whose key is not among the existing keys. -/
def videos_to_analyze (available : List (String × String))
    (db : List AnalysisRecord) : List (String × String) :=
  available.filter (fun p => !((existing_analyses db).contains (analysisKey p.1 p.2)))

/-- A FastAPI `HTTPException` as raised by the handlers. -/
structure ApiError where
  status_code : Nat
  detail : String
  deriving DecidableEq, Repr

/-- The body of the `AnalysisResponse` model returned on success. -/
structure StartResponse where
  analysis_id : String
  status : String
  message : String
  deriving DecidableEq, Repr

/-- Python `str()` of a starlette `HTTPException`:
`f"{status_code}: {detail}"`. -/
def httpExceptionStr (e : ApiError) : String :=
  toString e.status_code ++ ": " ++ e.detail

/-- The `try` body of `analyze_s3_user_video` (lines 154-188): build the
analysis id, look the video up, raise `HTTPException(404, ...)` when the
unit cannot be located, otherwise schedule the background job and answer
with status `processing`. -/
def analyze_s3_user_video_body (video_key : Option String)
    (user_id question_num ts : String) : Except ApiError StartResponse :=
  let aid := "manual_s3_analysis_" ++ user_id ++ "_" ++ question_num ++ "_" ++ ts
  match video_key with
  | none =>
      .error { status_code := 404,
               detail := "사용자 " ++ user_id ++ ", 질문 " ++ question_num ++ "의 영상 파일을 찾을 수 없습니다." }
  | some _ =>
      .ok { analysis_id := aid, status := "processing",
            message := "사용자 " ++ user_id ++ ", 질문 " ++ question_num ++ " 영상 분석이 시작되었습니다." }

/-- `analyze_s3_user_video` (lines 149-190).  The blanket
`except Exception` at line 189 has no preceding `except HTTPException:
raise` (unlike the other handlers of the file), so it also catches the
`HTTPException(404)` raised inside the `try` body and rewraps it as a 500
with detail `f"분석 시작 실패: {str(e)}"`. -/
def analyze_s3_user_video (video_key : Option String)
    (user_id question_num ts : String) : Except ApiError StartResponse :=
  match analyze_s3_user_video_body video_key user_id question_num ts with
  | .ok r => .ok r
  | .error e => .error { status_code := 500, detail := "분석 시작 실패: " ++ httpExceptionStr e }

/-- A status sink whose writes all succeed, for the closed instances. -/
def sinkW : Nat → Bool := fun _ => false

/-- A job environment whose four stages all succeed, with two gaze
violations and no multi-face detection. -/
def envOkW : JobEnv :=
  { download := .ok (), emotion := .ok (), gaze := .ok { total_violations := 2, face_multiple_detected := false },
    finalize := .ok () }

/-- A job environment whose eye-tracking stage raises. -/
def envEyeFailW : JobEnv :=
  { download := .ok (), emotion := .ok (), gaze := .raises "scoring failed",
    finalize := .ok () }

/-- A job environment that computes heavy cheat evidence (nine violations,
multi-face detected) and then raises during finalization. -/
def envLateFailW : JobEnv :=
  { download := .ok (), emotion := .ok (), gaze := .ok { total_violations := 9, face_multiple_detected := true },
    finalize := .raises "db down" }

/-- The analysis-id generator used in the closed scan instances. -/
def aidW (uid qnum : String) : String := "auto_s3_analysis_" ++ uid ++ "_" ++ qnum

/-- Three pending units for the closed scan instance: the second one fails
during scoring, the other two succeed. -/
def pendingW : List (String × String) := [("u1", "q1"), ("u2", "q2"), ("u3", "q3")]

/-- The per-unit environment of the closed scan instance. -/
def envW (uid qnum : String) : UnitEnv :=
  { video_key := some ("team12/" ++ uid ++ "/" ++ qnum ++ ".webm"),
    job := if uid == "u2" then envEyeFailW else envOkW }

/-- An existing record with status `error` whose key collides with the
unit `("a", "b_c")`: its own pair is `("a_b", "c")`. -/
def recJoinCollision : AnalysisRecord :=
  { analysis_id := "auto_s3_analysis_a_b_c_t0", user_id := "a_b", question_num := "c",
    session_id := "auto_batch", status := "error", error := some "boom",
    cheating := { suspected_copying := false, suspected_impersonation := false,
                  total_violations := 0, face_multiple_detected := false,
                  error_occurred := true } }

/-- An existing record for exactly the pair `("a", "b")`, with status
`error` (not `completed`). -/
def recErrorAB : AnalysisRecord :=
  { analysis_id := "auto_s3_analysis_a_b_t0", user_id := "a", question_num := "b",
    session_id := "auto_batch", status := "error", error := some "boom",
    cheating := { suspected_copying := false, suspected_impersonation := false,
                  total_violations := 0, face_multiple_detected := false,
                  error_occurred := true } }

/-- The upserted record is found again under its own key. -/
theorem findRecord_upsert_self (db : List AnalysisRecord) (r : AnalysisRecord) :
    findRecord (upsertRecord db r) r.analysis_id = some r := by
  induction db with
  | nil => simp [upsertRecord, findRecord]
  | cons x xs ih =>
    by_cases h : x.analysis_id = r.analysis_id
    · simp [upsertRecord, findRecord, h]
    · simpa [upsertRecord, findRecord, h] using ih

/-- Upserting under one key does not change lookups under another key. -/
theorem findRecord_upsert_other (db : List AnalysisRecord) (r : AnalysisRecord)
    (aid : String) (h : aid ≠ r.analysis_id) :
    findRecord (upsertRecord db r) aid = findRecord db aid := by
  have hra : ¬ r.analysis_id = aid := fun hh => h hh.symm
  induction db with
  | nil => simp [upsertRecord, findRecord, hra]
  | cons x xs ih =>
    by_cases hx : x.analysis_id = r.analysis_id
    · have hxa : ¬ x.analysis_id = aid := by rw [hx]; exact hra
      simp [upsertRecord, findRecord, hx, hxa, hra]
    · by_cases hxa : x.analysis_id = aid
      · simp [upsertRecord, findRecord, hx, hxa, hra, fun hh => h hh]
      · simpa [upsertRecord, findRecord, hx, hxa] using ih

/-- Every branch of a job run stamps the record with its own analysis id. -/
theorem runJob_record_analysis_id (aid uid qnum session : String) (env : JobEnv)
    (sink : Nat → Bool) :
    (runJob aid uid qnum session env sink).record.analysis_id = aid := by
  obtain ⟨d, e, g, f⟩ := env
  cases d <;> cases e <;> cases g <;> cases f <;> rfl

/-- When some stage of a run raises, the final record for that run is the
error record carrying the raised message. -/
theorem runJob_record_of_fail (aid uid qnum session : String) (env : JobEnv)
    (sink : Nat → Bool) (msg : String) (h : jobFailMsg env = some msg) :
    (runJob aid uid qnum session env sink).record = errorRecord aid uid qnum session msg := by
  obtain ⟨d, e, g, f⟩ := env
  cases d <;> cases e <;> cases g <;> cases f <;> simp_all [runJob, jobFailMsg]

/-- When no stage raises, the run ends with a `completed` record. -/
theorem runJob_status_of_ok (aid uid qnum session : String) (env : JobEnv)
    (sink : Nat → Bool) (h : jobFailMsg env = none) :
    (runJob aid uid qnum session env sink).record.status = "completed" := by
  obtain ⟨d, e, g, f⟩ := env
  cases d <;> cases e <;> cases g <;> cases f <;> simp_all [runJob, jobFailMsg, completedRecord]

/-- A scan over units none of which carries the key `aid` leaves the lookup
under `aid` unchanged. -/
theorem findRecord_scan_untouched (aidOf : String → String → String)
    (envOf : String → String → UnitEnv) (sink : Nat → Bool)
    (units : List (String × String)) (db : List AnalysisRecord) (aid : String)
    (h : ∀ p ∈ units, aidOf p.1 p.2 ≠ aid) :
    findRecord (auto_analyze_pending aidOf envOf sink units db) aid = findRecord db aid := by
  induction units generalizing db with
  | nil => rfl
  | cons p ps ih =>
    have hp : aidOf p.1 p.2 ≠ aid := h p (List.mem_cons_self p ps)
    have hps : ∀ x ∈ ps, aidOf x.1 x.2 ≠ aid := fun x hx => h x (List.mem_cons_of_mem p hx)
    show findRecord (auto_analyze_pending aidOf envOf sink ps (scan_step aidOf envOf sink db p)) aid = _
    rw [ih _ hps]
    unfold scan_step
    cases hv : (envOf p.1 p.2).video_key with
    | none => rfl
    | some k =>
      refine findRecord_upsert_other _ _ _ ?_
      rw [runJob_record_analysis_id]
      exact fun hh => hp hh.symm

/-- The scan iteration on a unit whose video file is found performs the
job and upserts its record. -/
theorem scan_step_found (aidOf : String → String → String)
    (envOf : String → String → UnitEnv) (sink : Nat → Bool)
    (db : List AnalysisRecord) (uid qnum k : String)
    (hk : (envOf uid qnum).video_key = some k) :
    scan_step aidOf envOf sink db (uid, qnum)
      = upsertRecord db (runJob (aidOf uid qnum) uid qnum "auto_batch" (envOf uid qnum).job sink).record := by
  unfold scan_step
  simp only [hk]

/-- Every unit of the pending list with a discoverable video receives its
own record from the scan, regardless of the other units' behaviour. -/
theorem scan_writes_each_unit (aidOf : String → String → String)
    (envOf : String → String → UnitEnv) (sink : Nat → Bool) (u q : String) :
    ∀ (pending : List (String × String)) (db : List AnalysisRecord),
    (u, q) ∈ pending →
    (pending.map (fun p => aidOf p.1 p.2)).Nodup →
    (envOf u q).video_key.isSome = true →
    findRecord (auto_analyze_pending aidOf envOf sink pending db) (aidOf u q)
      = some (runJob (aidOf u q) u q "auto_batch" (envOf u q).job sink).record := by
  intro pending
  induction pending with
  | nil => intro db h; cases h
  | cons p ps ih =>
    intro db hmem hnodup hvid
    rw [List.map_cons] at hnodup
    have hnotin := (List.nodup_cons.mp hnodup).1
    have htail := (List.nodup_cons.mp hnodup).2
    rcases List.mem_cons.mp hmem with hp | hp
    · subst hp
      obtain ⟨k, hk⟩ := Option.isSome_iff_exists.mp hvid
      have hks : ∀ x ∈ ps, aidOf x.1 x.2 ≠ aidOf u q := by
        intro x hx hcontra
        exact hnotin (hcontra ▸ List.mem_map_of_mem (fun y => aidOf y.1 y.2) hx)
      show findRecord
          (auto_analyze_pending aidOf envOf sink ps (scan_step aidOf envOf sink db (u, q)))
          (aidOf u q) = _
      rw [findRecord_scan_untouched _ _ _ _ _ _ hks, scan_step_found aidOf envOf sink db u q k hk]
      have hid := runJob_record_analysis_id (aidOf u q) u q "auto_batch" (envOf u q).job sink
      calc findRecord (upsertRecord db (runJob (aidOf u q) u q "auto_batch" (envOf u q).job sink).record) (aidOf u q)
          = findRecord (upsertRecord db (runJob (aidOf u q) u q "auto_batch" (envOf u q).job sink).record)
              (runJob (aidOf u q) u q "auto_batch" (envOf u q).job sink).record.analysis_id := by rw [hid]
        _ = some (runJob (aidOf u q) u q "auto_batch" (envOf u q).job sink).record :=
            findRecord_upsert_self _ _
    · exact ih (scan_step aidOf envOf sink db p) hp htail hvid

/-- Membership of a key in the existing-analyses key set, in terms of the
records of the store. -/
theorem key_mem_existing (db : List AnalysisRecord) (key : String) :
    (existing_analyses db).contains key = true ↔
      ∃ r ∈ db, r.user_id ≠ "" ∧ r.question_num ≠ ""
        ∧ analysisKey r.user_id r.question_num = key := by
  rw [show (existing_analyses db).contains key = List.elem key (existing_analyses db) from rfl,
      List.elem_iff]
  constructor
  · intro hmem
    rcases List.mem_map.mp hmem with ⟨r, hr, hkey⟩
    rcases List.mem_filter.mp hr with ⟨hrdb, hcond⟩
    rw [Bool.and_eq_true] at hcond
    rcases hcond with ⟨h1, h2⟩
    refine ⟨r, hrdb, ?_, ?_, hkey⟩
    · intro hc
      rw [hc] at h1
      simp at h1
    · intro hc
      rw [hc] at h2
      simp at h2
  · rintro ⟨r, hrdb, h1, h2, hkey⟩
    refine List.mem_map.mpr ⟨r, List.mem_filter.mpr ⟨hrdb, ?_⟩, hkey⟩
    simp [h1, h2]

/-- Membership in the pending set of a scan pass, in terms of the existing
records (lines 1214-1232). -/
theorem mem_videos_to_analyze (available : List (String × String))
    (db : List AnalysisRecord) (u q : String) :
    (u, q) ∈ videos_to_analyze available db ↔
      (u, q) ∈ available ∧ ¬ ∃ r ∈ db, r.user_id ≠ "" ∧ r.question_num ≠ ""
        ∧ analysisKey r.user_id r.question_num = analysisKey u q := by
  rw [videos_to_analyze, List.mem_filter]
  refine and_congr_right fun _ => ?_
  rw [Bool.not_eq_true', ← Bool.not_eq_true, not_iff_not]
  exact key_mem_existing db (analysisKey u q)

/-- C1: of two concurrent triggers of `process_gpt_batch`, at most one
passes the atomic single-flight guard; when the flag is already set, a new
trigger returns immediately, consumes no queue entry and leaves the state
unchanged apart from concurrently enqueued items. -/
theorem C1_single_flight (s : BatchState) (raiseAfter : Option Nat)
    (enqVals : List BatchItem) :
    ((drainAcquire s).2 = none ∨ (drainAcquire (drainAcquire s).1).2 = none)
    ∧ (s.active = true →
        drainAcquire s = (s, none)
        ∧ (process_gpt_batch raiseAfter enqVals s).2 = []
        ∧ (process_gpt_batch raiseAfter enqVals s).1
            = { pending := s.pending ++ enqVals, active := true }) := by
  obtain ⟨pen, act⟩ := s
  cases act
  · refine ⟨?_, ?_⟩
    · cases pen with
      | nil => left; simp [drainAcquire]
      | cons x xs => right; simp [drainAcquire]
    · intro h
      simp at h
  · exact ⟨Or.inl (by simp [drainAcquire]),
      fun _ => ⟨by simp [drainAcquire],
        by simp [process_gpt_batch, drainAcquire],
        by simp [process_gpt_batch, drainAcquire]⟩⟩

/-- C1 witness: with the flag set and one queued item, a trigger is a no-op
that processes nothing. -/
theorem C1_single_flight_witness :
    drainAcquire { pending := [itemA], active := true }
      = ({ pending := [itemA], active := true }, none)
    ∧ (process_gpt_batch none [itemB] { pending := [itemA], active := true }).2 = []
    ∧ (process_gpt_batch none [itemB] { pending := [itemA], active := true }).1
        = { pending := [itemA] ++ [itemB], active := true } :=
  (C1_single_flight { pending := [itemA], active := true } none [itemB]).2 rfl

/-- C2: a drain consumes exactly the snapshot taken at its start; an entry
enqueued after that point is absent from the drain's processed set, stays
in the fresh queue, and is processed by the next drain. -/
theorem C2_drain_snapshot (s : BatchState) (enqVals : List BatchItem)
    (e : BatchItem) (hact : s.active = false) (hne : s.pending ≠ [])
    (he : e ∈ enqVals) (hfresh : e ∉ s.pending) :
    (process_gpt_batch none enqVals s).2 = s.pending
    ∧ e ∉ (process_gpt_batch none enqVals s).2
    ∧ e ∈ (process_gpt_batch none enqVals s).1.pending
    ∧ e ∈ (process_gpt_batch none [] ((process_gpt_batch none enqVals s).1)).2 := by
  obtain ⟨pen, act⟩ := s
  simp only at hact hne hfresh
  subst hact
  cases pen with
  | nil => exact absurd rfl hne
  | cons x xs =>
    have henq : enqVals ≠ [] := List.ne_nil_of_mem he
    cases enqVals with
    | nil => cases he
    | cons y ys =>
      exact ⟨rfl, hfresh, he, by simpa [process_gpt_batch, drainAcquire] using he⟩

/-- C2 witness: `itemB`, enqueued during a drain of the queue `[itemA]`, is
not processed by that drain, stays queued, and is processed by the next. -/
theorem C2_drain_snapshot_witness :
    (process_gpt_batch none [itemB] { pending := [itemA], active := false }).2 = [itemA]
    ∧ itemB ∉ (process_gpt_batch none [itemB] { pending := [itemA], active := false }).2
    ∧ itemB ∈ (process_gpt_batch none [itemB] { pending := [itemA], active := false }).1.pending
    ∧ itemB ∈ (process_gpt_batch none []
        ((process_gpt_batch none [itemB] { pending := [itemA], active := false }).1)).2 :=
  C2_drain_snapshot { pending := [itemA], active := false } [itemB] itemB rfl
    (by decide) (by decide) (by decide)

/-- C3: a drain that passes the guard sets the single-flight flag, and the
flag is false again when the drain terminates, both on normal completion
(`raiseAfter = none`) and when a top-level exception interrupts the
processing loop (`raiseAfter = some k`): the `finally` block always runs. -/
theorem C3_flag_released (s : BatchState) (raiseAfter : Option Nat)
    (enqVals : List BatchItem) (hact : s.active = false) (hne : s.pending ≠ []) :
    (drainAcquire s).1.active = true
    ∧ (process_gpt_batch raiseAfter enqVals s).1.active = false := by
  obtain ⟨pen, act⟩ := s
  simp only at hact hne
  subst hact
  cases pen with
  | nil => exact absurd rfl hne
  | cons x xs => exact ⟨rfl, rfl⟩

/-- C3 witness: a drain of `[itemA, itemB]` interrupted by a top-level
exception after one item still ends with the flag cleared. -/
theorem C3_flag_released_witness :
    (drainAcquire { pending := [itemA, itemB], active := false }).1.active = true
    ∧ (process_gpt_batch (some 1) [] { pending := [itemA, itemB], active := false }).1.active = false :=
  C3_flag_released { pending := [itemA, itemB], active := false } (some 1) [] rfl (by decide)

/-- C4: in a scan pass over pending units, every unit with a discoverable
video gets its own record regardless of the other units' outcomes: a unit
whose stage raises gets an upserted record with status `error` carrying
the causing message, and every unit whose stages succeed reaches status
`completed` — a failing unit never aborts the rest of the scan. -/
theorem C4_scan_failure_isolation (aidOf : String → String → String)
    (envOf : String → String → UnitEnv) (sink : Nat → Bool)
    (pending : List (String × String)) (db : List AnalysisRecord) (u q : String)
    (hmem : (u, q) ∈ pending)
    (hnodup : (pending.map (fun p => aidOf p.1 p.2)).Nodup)
    (hvid : (envOf u q).video_key.isSome = true) :
    findRecord (auto_analyze_pending aidOf envOf sink pending db) (aidOf u q)
      = some (runJob (aidOf u q) u q "auto_batch" (envOf u q).job sink).record
    ∧ (∀ msg, jobFailMsg (envOf u q).job = some msg →
        (runJob (aidOf u q) u q "auto_batch" (envOf u q).job sink).record.status = "error"
        ∧ (runJob (aidOf u q) u q "auto_batch" (envOf u q).job sink).record.error = some msg)
    ∧ (jobFailMsg (envOf u q).job = none →
        (runJob (aidOf u q) u q "auto_batch" (envOf u q).job sink).record.status = "completed") := by
  refine ⟨scan_writes_each_unit aidOf envOf sink u q pending db hmem hnodup hvid, ?_, ?_⟩
  · intro msg h
    rw [runJob_record_of_fail _ _ _ _ _ _ _ h]
    exact ⟨rfl, rfl⟩
  · exact runJob_status_of_ok _ _ _ _ _ _

/-- C4 witness: three pending units, the second of which raises during
scoring; after the scan the second unit has an `error` record and the
first a `completed` one. -/
theorem C4_scan_failure_isolation_witness :
    findRecord (auto_analyze_pending aidW envW sinkW pendingW []) (aidW "u2" "q2")
      = some (runJob (aidW "u2" "q2") "u2" "q2" "auto_batch" (envW "u2" "q2").job sinkW).record
    ∧ (runJob (aidW "u2" "q2") "u2" "q2" "auto_batch" (envW "u2" "q2").job sinkW).record.status = "error"
    ∧ (runJob (aidW "u1" "q1") "u1" "q1" "auto_batch" (envW "u1" "q1").job sinkW).record.status = "completed" := by
  have h2 := C4_scan_failure_isolation aidW envW sinkW pendingW [] "u2" "q2"
    (by decide) (by decide) (by decide)
  have h1 := C4_scan_failure_isolation aidW envW sinkW pendingW [] "u1" "q1"
    (by decide) (by decide) (by decide)
  exact ⟨h2.1, (h2.2.1 "scoring failed" (by decide)).1, h1.2.2 (by decide)⟩

/-- C5: the cheat signals of a completed job are a pure function of the
gaze summary: `suspected_copying` holds iff the violation count is at
least 5 (4 gives false, 5 gives true) and `suspected_impersonation` equals
the multi-face flag unconditionally; the batch drain recomputes the same
pair. -/
theorem C5_cheat_signals_pure (aid uid qnum session : String) (g : GazeSummary) :
    ((completedRecord aid uid qnum session g).cheating.suspected_copying = true
        ↔ 5 ≤ g.total_violations)
    ∧ (completedRecord aid uid qnum session g).cheating.suspected_impersonation
        = g.face_multiple_detected
    ∧ (completedRecord aid uid qnum session
        { total_violations := 4, face_multiple_detected := g.face_multiple_detected }).cheating.suspected_copying = false
    ∧ (completedRecord aid uid qnum session
        { total_violations := 5, face_multiple_detected := g.face_multiple_detected }).cheating.suspected_copying = true
    ∧ drainCheatSignals g
        = ((completedRecord aid uid qnum session g).cheating.suspected_copying,
           (completedRecord aid uid qnum session g).cheating.suspected_impersonation) := by
  refine ⟨?_, rfl, by simp [completedRecord], by simp [completedRecord], rfl⟩
  simp [completedRecord]

/-- C6 counterexample to the claim as stated: the dedup key is the string
join `user_id + "_" + question_num`, so the unit `("a", "b_c")` is
excluded by an existing record of the different pair `("a_b", "c")` even
though no record exists for `("a", "b_c")` — exclusion is not equivalent
to "a record exists for that pair". -/
theorem C6_dedup_claim_counterexample :
    videos_to_analyze [("a", "b_c")] [recJoinCollision] = []
    ∧ ¬ ∃ r ∈ [recJoinCollision], r.user_id = "a" ∧ r.question_num = "b_c" := by
  constructor
  · decide
  · decide

/-- C6 (amended): a unit in the available list is excluded from the
pending set exactly when some record with non-empty user and question
fields has the same joined key string; in particular a record for exactly
that pair excludes it regardless of the record's status — `completed` is
not required. -/
theorem C6_dedup_any_status (available : List (String × String))
    (db : List AnalysisRecord) (u q : String) (hmem : (u, q) ∈ available) :
    ((u, q) ∉ videos_to_analyze available db ↔
       ∃ r ∈ db, r.user_id ≠ "" ∧ r.question_num ≠ ""
         ∧ analysisKey r.user_id r.question_num = analysisKey u q)
    ∧ (∀ r ∈ db, r.user_id = u → r.question_num = q → u ≠ "" → q ≠ "" →
        (u, q) ∉ videos_to_analyze available db) := by
  constructor
  · rw [mem_videos_to_analyze]
    constructor
    · intro h
      by_contra hc
      exact h ⟨hmem, hc⟩
    · intro hex hmem2
      exact hmem2.2 hex
  · intro r hr h1 h2 h3 h4
    rw [mem_videos_to_analyze]
    rintro ⟨-, hno⟩
    refine hno ⟨r, hr, ?_, ?_, ?_⟩
    · rw [h1]; exact h3
    · rw [h2]; exact h4
    · rw [h1, h2]

/-- C6 witness: an existing record for `("a", "b")` with status `error`
(not `completed`) excludes the unit `("a", "b")` from the pending set. -/
theorem C6_dedup_any_status_witness :
    ("a", "b") ∉ videos_to_analyze [("a", "b")] [recErrorAB]
    ∧ recErrorAB.status = "error" := by
  have h := C6_dedup_any_status [("a", "b")] [recErrorAB] "a" "b" (by decide)
  exact ⟨h.2 recErrorAB (by decide) rfl rfl (by decide) (by decide), rfl⟩

/-- C7: a successful job run publishes exactly the progress sequence
10, 30, 60, 80, 100, which is non-decreasing; a run failing at any stage
publishes 0 as its final progress value. -/
theorem C7_progress_monotone (aid uid qnum session : String) (env : JobEnv)
    (sink : Nat → Bool) :
    (jobFailMsg env = none →
        jobProgressSeq aid uid qnum session env sink = [10, 30, 60, 80, 100]
        ∧ List.Chain' (· ≤ ·) (jobProgressSeq aid uid qnum session env sink))
    ∧ (∀ msg, jobFailMsg env = some msg →
        (jobProgressSeq aid uid qnum session env sink).getLast? = some 0) := by
  obtain ⟨d, e, g, f⟩ := env
  cases d <;> cases e <;> cases g <;> cases f <;>
    simp_all [jobProgressSeq, runJob, jobFailMsg, update_analysis_status]

/-- C7 witness: the all-stages-succeed run publishes 10, 30, 60, 80, 100;
the run failing during eye tracking ends at progress 0. -/
theorem C7_progress_monotone_witness :
    jobProgressSeq "aid1" "u1" "q1" "auto_batch" envOkW sinkW = [10, 30, 60, 80, 100]
    ∧ (jobProgressSeq "aid2" "u2" "q2" "auto_batch" envEyeFailW sinkW).getLast? = some 0 :=
  ⟨((C7_progress_monotone "aid1" "u1" "q1" "auto_batch" envOkW sinkW).1 rfl).1,
   (C7_progress_monotone "aid2" "u2" "q2" "auto_batch" envEyeFailW sinkW).2 "scoring failed" rfl⟩

/-- C8: a status-write failure is swallowed inside `update_analysis_status`
and never reaches the pipeline: the stored record, the batch-queue
addition and the emitted update sequence are identical for any two sink
behaviours, and no sink failure can make a stage-wise successful job end
in anything but `completed`. -/
theorem C8_sink_failures_isolated (aid uid qnum session : String) (env : JobEnv)
    (s1 s2 : Nat → Bool) :
    (runJob aid uid qnum session env s1).record = (runJob aid uid qnum session env s2).record
    ∧ (runJob aid uid qnum session env s1).queueAdd = (runJob aid uid qnum session env s2).queueAdd
    ∧ (runJob aid uid qnum session env s1).sinkEvents.map (fun c => c.update)
        = (runJob aid uid qnum session env s2).sinkEvents.map (fun c => c.update)
    ∧ (∀ b u, (update_analysis_status b u).update = u)
    ∧ (jobFailMsg env = none →
        (runJob aid uid qnum session env s1).record.status = "completed") := by
  obtain ⟨d, e, g, f⟩ := env
  cases d <;> cases e <;> cases g <;> cases f <;>
    simp_all [runJob, jobFailMsg, update_analysis_status, completedRecord]

/-- C8 witness: an always-failing status sink yields the same completed
record as an always-succeeding one. -/
theorem C8_sink_failures_isolated_witness :
    (runJob "aid1" "u1" "q1" "auto_batch" envOkW (fun _ => true)).record
      = (runJob "aid1" "u1" "q1" "auto_batch" envOkW sinkW).record
    ∧ (runJob "aid1" "u1" "q1" "auto_batch" envOkW (fun _ => true)).record.status = "completed" := by
  have h := C8_sink_failures_isolated "aid1" "u1" "q1" "auto_batch" envOkW (fun _ => true) sinkW
  exact ⟨h.1, h.2.2.2.2 rfl⟩

/-- C9: when the unit's video cannot be located, `analyze_s3_user_video`
does not answer 404-equivalent: the `HTTPException(404)` raised in the try
body is caught by the blanket `except Exception` and rewrapped as a 500;
when the video is found, the response carries the new analysis id with
status `processing`. -/
theorem C9_not_found_rewrapped_as_500 :
    analyze_s3_user_video none "iv001" "Q001" "20250617_120000"
      = .error { status_code := 500,
                 detail := "분석 시작 실패: 404: 사용자 iv001, 질문 Q001의 영상 파일을 찾을 수 없습니다." }
    ∧ (500 : Nat) ≠ 404
    ∧ analyze_s3_user_video (some "team12/interview_video/iv001/Q001.webm")
        "iv001" "Q001" "20250617_120000"
      = .ok { analysis_id := "manual_s3_analysis_iv001_Q001_20250617_120000",
              status := "processing",
              message := "사용자 iv001, 질문 Q001 영상 분석이 시작되었습니다." } := by
  refine ⟨?_, by decide, rfl⟩
  rfl

/-- C10: whatever stage outputs were computed before the failure, the
error record of a failed job reports every cheat signal as absent. -/
theorem C10_error_record_blank_signals (aid uid qnum session msg : String)
    (env : JobEnv) (sink : Nat → Bool) (hfail : jobFailMsg env = some msg) :
    (runJob aid uid qnum session env sink).record.cheating =
      { suspected_copying := false, suspected_impersonation := false,
        total_violations := 0, face_multiple_detected := false,
        error_occurred := true } := by
  rw [runJob_record_of_fail _ _ _ _ _ _ _ hfail]
  rfl

/-- C10 witness: a run that computed nine violations and a multi-face
detection but failed during finalization still stores all-absent cheat
signals. -/
theorem C10_error_record_blank_signals_witness :
    (runJob "aid9" "u9" "q9" "auto_batch" envLateFailW sinkW).record.cheating =
      { suspected_copying := false, suspected_impersonation := false,
        total_violations := 0, face_multiple_detected := false,
        error_occurred := true }
    ∧ envLateFailW.gaze = .ok { total_violations := 9, face_multiple_detected := true } :=
  ⟨C10_error_record_blank_signals "aid9" "u9" "q9" "auto_batch" "db down" envLateFailW sinkW rfl,
   rfl⟩

end ModelVideo
